import Mathlib

/-
  Shallow embedding of the EDIFACT RECADV generator (AScotM/edifact_recadv).
  Strings are modelled as lists of characters (ASCII text, which covers every
  string the generator is used with); Python exceptions are modelled by
  threading the builder state together with an optional error value, so that
  the state visible after a raised exception is exactly the state the Python
  object would hold.  The main embedded variant is src/release2/recadv.py;
  src/release1/recadv.py and src/refactor5/edifact_recadv.py are embedded
  where claims cite them.
-/

namespace EdifactRecadv

/-- Text is modelled as a list of characters. -/
abbrev Str := List Char

/-- Converts a Lean string literal into the character-list model. -/
def str (s : String) : Str := s.toList

/-- The EDIFACT segment terminator character (the apostrophe, code point 39). -/
def apos : Char := Char.ofNat 39

/-- The EDIFACT release (escape) character. -/
def rel : Char := '?'

/-- The EDIFACT element separator character. -/
def plusC : Char := '+'

/-- The EDIFACT component separator character. -/
def colonC : Char := ':'

/-- Embeds Python `s.replace(pat, rep)` for a single-character pattern:
every occurrence of `pat` is replaced by `rep`. -/
def replaceChar (pat : Char) (rep : Str) : Str → Str
  | [] => []
  | c :: rest => (if c = pat then rep else [c]) ++ replaceChar pat rep rest

/-- Embeds the element-escaping expression of `_segment` in
src/release2/recadv.py lines 45-48 (identical in release1 lines 57-60 and
refactor5): `str(e).replace("?", "??").replace(CHR39, "?" + CHR39).replace(":", "?:")`
where CHR39 is the segment terminator character. -/
def pyEscape (s : Str) : Str :=
  replaceChar colonC [rel, colonC]
    (replaceChar apos [rel, apos]
      (replaceChar rel [rel, rel] s))

/-- Character-wise description of the escaping: the release character is
doubled, the terminator and the component separator get a release character
put in front, everything else is unchanged.  Proved equal to `pyEscape`. -/
def escChar (c : Char) : Str :=
  if c = rel then [rel, rel]
  else if c = apos then [rel, apos]
  else if c = colonC then [rel, colonC]
  else [c]

/-- Character-wise escaping extended to a whole string. -/
def escMap (s : Str) : Str := s.flatMap escChar

/-- Embeds Python `str(n)` for a natural number. -/
def natToStr (n : Nat) : Str := Nat.toDigits 10 n

/-- Embeds Python `s.isdigit()` on ASCII text: true when the string is
non-empty and every character is a decimal digit. -/
def isdigit (s : Str) : Bool := !s.isEmpty && s.all Char.isDigit

/-- Embeds the test of `_validate_ean` (src/release2/recadv.py line 39):
`ean.isdigit() and len(ean) == 13`. -/
def validEanB (ean : Str) : Bool := isdigit ean && ean.length == 13

/-- Embeds Python `"+".join(parts)`: the parts concatenated with a single
`+` between consecutive parts. -/
def joinPlus : List Str → Str
  | [] => []
  | [e] => e
  | e :: rest => e ++ [plusC] ++ joinPlus rest

namespace Release1

/-- Embeds `_segment` of src/release1/recadv.py lines 52-61: every element is
escaped with `pyEscape`, the escaped elements are joined with `+` and the
result is wrapped as `tag + body + terminator`.  No element is dropped. -/
def segment (tag : Str) (elems : List Str) : Str :=
  tag ++ [plusC] ++ joinPlus (elems.map pyEscape) ++ [apos]

end Release1

namespace Release2

/-- Embeds `_segment` of src/release2/recadv.py lines 43-50: like release1,
but elements equal to the empty string are filtered out before escaping
(the Python comprehension guard `if e != "" and e is not None`). -/
def segment (tag : Str) (elems : List Str) : Str :=
  tag ++ [plusC] ++ joinPlus ((elems.filter (fun e => e ≠ [])).map pyEscape) ++ [apos]

end Release2

/-- The fixed UNA service-string-advice segment appended by
`add_una_segment` (src/release2/recadv.py line 53): `UNA:+.? ` followed by
the terminator character. -/
def unaSegment : Str := str "UNA:+.? " ++ [apos]

/-- Sequences two fallible builder steps: when the first step raised, its
state and error are kept (the Python exception propagates); otherwise the
second step runs on the resulting state. -/
def step {α ε : Type} (r : α × Option ε) (f : α → α × Option ε) : α × Option ε :=
  match r with
  | (m, some e) => (m, some e)
  | (m, none) => f m

namespace Release2

/-- Embeds the per-message configuration fields of `RecadvGenerator.__init__`
(src/release2/recadv.py lines 10-31); the output directory and verbosity flag
play no part in message assembly and are omitted. -/
structure Config where
  carrier : Str
  delivery_location : Str
  buyer_ean : Str
  supplier_ean : Str
  reference_number : Str
  document_number : Str

/-- Embeds one entry of the `line_items` argument of `generate`.  `cartons`
holds the Python `str(cartons)` text and `weight` the weight composite. -/
structure LineItem where
  line_no : Str
  ean : Str
  qty : Str
  cartons : Str
  weight : Str

/-- The error text raised by `_validate_ean` (src/release2/recadv.py
line 40). -/
def eanError (ean : Str) : Str :=
  str "Invalid EAN: " ++ ean ++ str ". Must be 13 digits."

/-- The error text raised by `add_line_item` on a non-numeric quantity
(src/release2/recadv.py line 84). -/
def qtyError (qty : Str) : Str :=
  str "Quantity must be numeric, got: " ++ qty

/-- The error text raised by `generate` on an empty line-item list
(src/release2/recadv.py line 97). -/
def emptyItemsError : Str := str "At least one line item is required."

/-- Embeds `add_una_segment` (line 52-53): appends the fixed UNA segment. -/
def add_una_segment (m : List Str) : List Str := m ++ [unaSegment]

/-- Embeds `add_header` (lines 55-59), with the message reference and the
formatted timestamp `datetime.now().strftime(PCT_Y_m_d_H_M)` passed in as
values.  The DTM and RFF payloads are single elements built by f-strings, so
their colons go through the escaping. -/
def add_header (cfg : Config) (ref now : Str) (m : List Str) : List Str :=
  m ++ [segment (str "UNH") [ref, str "RECADV:D:96A:UN:EAN008"],
        segment (str "BGM") [str "351", cfg.document_number, str "9"],
        segment (str "DTM") [str "137:" ++ now ++ str ":203"],
        segment (str "RFF") [str "DQ:" ++ cfg.reference_number]]

/-- Embeds `add_party` (lines 61-63): validates the EAN first (raising
before anything is appended) and then appends the NAD segment. -/
def add_party (m : List Str) (qualifier ean : Str) : List Str × Option Str :=
  if validEanB ean then
    (m ++ [segment (str "NAD") [qualifier, ean ++ str "::9"]], none)
  else (m, some (eanError ean))

/-- Embeds `add_default_parties` (lines 65-67): buyer then supplier. -/
def add_default_parties (cfg : Config) (m : List Str) : List Str × Option Str :=
  step (add_party m (str "BY") cfg.buyer_ean) fun m2 =>
    add_party m2 (str "SU") cfg.supplier_ean

/-- Embeds `add_transport_details` (lines 69-71). -/
def add_transport_details (cfg : Config) (m : List Str) : List Str :=
  m ++ [segment (str "TDT") [str "20", [], [], str "31", [], cfg.carrier],
        segment (str "LOC") [str "9", cfg.delivery_location]]

/-- The four segments LIN, QTY, PAC, MEA appended for one line item by
`add_line_item` (src/release2/recadv.py lines 86-89). -/
def itemSegs (it : LineItem) : List Str :=
  [segment (str "LIN") [it.line_no, [], str "EN:" ++ it.ean],
   segment (str "QTY") [str "113:" ++ it.qty],
   segment (str "PAC") [it.cartons, str "CT"],
   segment (str "MEA") [str "AAE", str "G", it.weight]]

/-- Embeds `add_line_item` (lines 73-89): the EAN is validated first, then
the quantity, and only then are the four segments LIN, QTY, PAC, MEA
appended; a raise leaves the message untouched. -/
def add_line_item (m : List Str) (it : LineItem) : List Str × Option Str :=
  if validEanB it.ean then
    if isdigit it.qty then (m ++ itemSegs it, none)
    else (m, some (qtyError it.qty))
  else (m, some (eanError it.ean))

/-- Embeds `add_trailer` (lines 91-93): the count is the length of the
message before the trailer plus one, and the UNT segment is appended. -/
def add_trailer (ref : Str) (m : List Str) : List Str :=
  m ++ [segment (str "UNT") [natToStr (m.length + 1), ref]]

/-- Embeds the line-item loop of `generate` (lines 107-114): items are
processed in order and the first raise stops the loop. -/
def runItems (m : List Str) : List LineItem → List Str × Option Str
  | [] => (m, none)
  | it :: rest =>
    match add_line_item m it with
    | (m2, some e) => (m2, some e)
    | (m2, none) => runItems m2 rest

/-- Embeds `_generate_message_reference` (lines 34-36): the formatted
timestamp concatenated with the first eight hex characters of a fresh
UUID4, both passed in as values. -/
def generate_message_reference (ts suffix : Str) : Str := ts ++ suffix

/-- Embeds `generate` (src/release2/recadv.py lines 95-123) with the fresh
message reference `ref` and the formatted timestamp `now` passed in as
values.  `m0` is the message list held by the builder before the call: an
empty-items raise happens before `self.message.clear()`, so that list
survives.  The result pairs the builder message list after the call with
the raised error, if any. -/
def generate (cfg : Config) (ref now : Str) (m0 : List Str)
    (items : List LineItem) : List Str × Option Str :=
  if items.isEmpty then (m0, some emptyItemsError) else
  step (add_default_parties cfg (add_header cfg ref now (add_una_segment []))) fun m2 =>
  step (runItems (add_transport_details cfg m2) items) fun m4 =>
  (add_trailer ref m4, none)

/-- The nine fixed segments a successful `generate` call emits before the
line items: UNA, UNH, BGM, DTM, RFF, the two NAD, TDT, LOC.  Proved below
to be what `add_una_segment`, `add_header`, `add_default_parties` and
`add_transport_details` produce on a fresh message. -/
def headerSegs (cfg : Config) (ref now : Str) : List Str :=
  [unaSegment,
   segment (str "UNH") [ref, str "RECADV:D:96A:UN:EAN008"],
   segment (str "BGM") [str "351", cfg.document_number, str "9"],
   segment (str "DTM") [str "137:" ++ now ++ str ":203"],
   segment (str "RFF") [str "DQ:" ++ cfg.reference_number],
   segment (str "NAD") [str "BY", cfg.buyer_ean ++ str "::9"],
   segment (str "NAD") [str "SU", cfg.supplier_ean ++ str "::9"],
   segment (str "TDT") [str "20", [], [], str "31", [], cfg.carrier],
   segment (str "LOC") [str "9", cfg.delivery_location]]

end Release2

/-- Modelled from the spec: the reference inverse of the element escaping,
which maps the two-character groups `??`, `?` + terminator, `?+`, `?:` back
to the single character introduced by the release character, and leaves
every other character unchanged. -/
def specUnescape : Str → Str
  | [] => []
  | [c] => if c = rel then [] else [c]
  | c :: d :: rest =>
    if c = rel then d :: specUnescape rest
    else c :: specUnescape (d :: rest)

/-- Scans a string under the EDIFACT release convention and reports whether
it is free of unescaped occurrences of `c`: a character right after a
release character is escaped data and is skipped. -/
def noUnescaped (c : Char) : Str → Bool
  | [] => true
  | [a] => a = rel || a != c
  | a :: b :: rest =>
    if a = rel then noUnescaped c rest
    else a != c && noUnescaped c (b :: rest)

namespace Save

/-- The filesystem state the durable writer of src/release2/recadv.py
lines 125-141 manipulates: the names of the files present in the output
directory, plus the Python local variable `tmp_file` (None until the line
`tmp_file = tmp.name` runs). -/
structure SaveState where
  fs : List Str
  tmp_file : Option Str

/-- The step of `generate_and_save` in whose body a simulated I/O failure
is injected: creating the named temporary file, writing the content to it,
or moving it onto the final path; `noFail` is the unfailing run. -/
inductive FailPoint where
  | noFail
  | atCreate
  | atWrite
  | atMove
deriving DecidableEq

/-- Embeds the `finally` clause (src/release2/recadv.py lines 137-139):
`if tmp_file and os.path.exists(tmp_file): os.remove(tmp_file)`. -/
def finallyCleanup (st : SaveState) : SaveState :=
  match st.tmp_file with
  | some t => if t ∈ st.fs then ⟨st.fs.filter (fun n => n ≠ t), st.tmp_file⟩ else st
  | none => st

/-- Embeds the `try` body (src/release2/recadv.py lines 132-136), stopping
at the injected failure point with the state reached so far: the
`NamedTemporaryFile(..., delete=False, dir=self.output_dir)` call creates
the temporary file, `tmp.write(edi_content)` writes it, only then does
`tmp_file = tmp.name` run, and finally `shutil.move(tmp_file, filepath)`
renames it onto the target.  The returned flag records whether an
exception was raised. -/
def tryBody (fp : FailPoint) (tmpName target : Str) (st : SaveState) :
    SaveState × Bool :=
  if fp = .atCreate then (st, true) else
  let st1 : SaveState := ⟨st.fs ++ [tmpName], st.tmp_file⟩
  if fp = .atWrite then (st1, true) else
  let st2 : SaveState := ⟨st1.fs, some tmpName⟩
  if fp = .atMove then (st2, true) else
  let st3 : SaveState := ⟨st2.fs.filter (fun n => n ≠ tmpName) ++ [target], st2.tmp_file⟩
  (st3, false)

/-- Embeds the write path of `generate_and_save` (src/release2/recadv.py
lines 130-139): the `try` body followed unconditionally by the `finally`
clause, starting with `tmp_file = None`. -/
def generate_and_save_fs (fp : FailPoint) (tmpName target : Str)
    (fs0 : List Str) : SaveState × Bool :=
  let r := tryBody fp tmpName target ⟨fs0, none⟩
  (finallyCleanup r.1, r.2)

end Save

namespace Refactor5

/-- Embeds the builder state of src/refactor5/edifact_recadv.py: the
message reference is a field set once by `__init__` (line 29) and never
reassigned by `generate`. -/
structure State where
  message_ref : Str
  carrier : Str
  delivery_location : Str
  buyer_ean : Str
  supplier_ean : Str
  reference_number : Str
deriving DecidableEq

/-- Embeds one entry of the `line_items` argument of refactor5 `generate`. -/
structure Item where
  line_no : Str
  ean : Str
  qty : Str
deriving DecidableEq

/-- Embeds `__init__` of src/refactor5/edifact_recadv.py lines 7-36: the
message reference is the formatted timestamp plus the first four characters
of `str(uuid.uuid4().int)`, generated once per instance, and the two EANs
are validated. -/
def init (ts rand4 carrier dl buyer supplier refno : Str) : Except Str State :=
  if validEanB buyer then
    if validEanB supplier then
      .ok ⟨ts ++ rand4, carrier, dl, buyer, supplier, refno⟩
    else .error (Release2.eanError supplier)
  else .error (Release2.eanError buyer)

/-- Embeds the line-item loop of refactor5 `generate` (lines 128-129) with
`add_line_item` (lines 86-99): only the EAN is validated, then LIN, QTY,
PAC, MEA are appended. -/
def runItems (m : List Str) : List Item → List Str × Option Str
  | [] => (m, none)
  | it :: rest =>
    if validEanB it.ean then
      runItems
        (m ++ [Release1.segment (str "LIN") [it.line_no, [], str "EN:" ++ it.ean],
               Release1.segment (str "QTY") [str "113:" ++ it.qty],
               Release1.segment (str "PAC") [str "1", str "CT"],
               Release1.segment (str "MEA") [str "AAE", str "G", str "KGM:6.5"]])
        rest
    else (m, some (Release2.eanError it.ean))

/-- Embeds refactor5 `generate` (lines 106-132): it reads `st.message_ref`
set at construction time and does not regenerate it; the segment encoder is
the release1-style one (no empty-element filtering); `m0` is the message
list held before the call, kept when the empty-items check raises. -/
def generate (st : State) (now : Str) (m0 : List Str)
    (items : List Item) : List Str × Option Str :=
  if items.isEmpty then (m0, some Release2.emptyItemsError) else
  let m := [unaSegment,
            Release1.segment (str "UNH") [st.message_ref, str "RECADV:D:96A:UN:EAN008"],
            Release1.segment (str "BGM") [str "351", str "RECADV001", str "9"],
            Release1.segment (str "DTM") [str "137:" ++ now ++ str ":203"],
            Release1.segment (str "RFF") [str "DQ:" ++ st.reference_number],
            Release1.segment (str "NAD") [str "BY", st.buyer_ean ++ str "::9"],
            Release1.segment (str "NAD") [str "SU", st.supplier_ean ++ str "::9"],
            Release1.segment (str "TDT") [str "20", [], [], str "31", [], st.carrier],
            Release1.segment (str "LOC") [str "9", st.delivery_location]]
  step (runItems m items) fun m2 =>
  (m2 ++ [Release1.segment (str "UNT") [natToStr (m2.length + 1), st.message_ref]], none)

end Refactor5

/-- The configuration of the end-to-end scenario of the spec: buyer EAN
5412345000176, supplier EAN 4012345500004, reference 123456789, document
number RECADV001, with the default carrier and delivery location. -/
def e2eCfg : Release2.Config :=
  ⟨str "CarrierX", str "DEHAM", str "5412345000176", str "4012345500004",
   str "123456789", str "RECADV001"⟩

/-- The single line item of the end-to-end scenario: line 1, EAN
4000862141404, quantity 12, with the default carton count and weight. -/
def e2eItem : Release2.LineItem :=
  ⟨str "1", str "4000862141404", str "12", str "1", str "KGM:6.5"⟩

/-- A line item whose EAN contains non-digit characters, as in the spec
EAN-rejection scenario. -/
def badEanItem : Release2.LineItem :=
  ⟨str "1", str "abcde1234567", str "12", str "1", str "KGM:6.5"⟩

/-- A refactor5 builder as `init` constructs it at timestamp 202601011200
with random suffix 1234 and the default configuration. -/
def r5State : Refactor5.State :=
  ⟨str "2026010112001234", str "CarrierX", str "DEHAM", str "5412345000176",
   str "4012345500004", str "123456789"⟩

/-- A refactor5 line item used to exercise `Refactor5.generate`. -/
def r5Item : Refactor5.Item := ⟨str "1", str "4000862141404", str "12"⟩

/-- The body of a release1 segment: everything before the terminator. -/
def segBody1 (tag : Str) (elems : List Str) : Str :=
  tag ++ [plusC] ++ joinPlus (elems.map pyEscape)

/-- The body of a release2 segment: everything before the terminator. -/
def segBody2 (tag : Str) (elems : List Str) : Str :=
  tag ++ [plusC] ++ joinPlus ((elems.filter (fun e => e ≠ [])).map pyEscape)

/-- The message a successful release2 `generate` call produces: the nine
fixed segments, four segments per line item, and the trailer appended by
`add_trailer`.  Proved equal to the result of `Release2.generate` below. -/
def fullMsg (cfg : Release2.Config) (ref now : Str)
    (items : List Release2.LineItem) : List Str :=
  Release2.add_trailer ref
    (Release2.headerSegs cfg ref now ++ items.flatMap Release2.itemSegs)

/-- The message of a concrete release2 `generate` call whose reference was
built from timestamp 202601011200 and random suffix aabbccdd. -/
def c9wMsg : List Str :=
  (Release2.generate e2eCfg
    (Release2.generate_message_reference (str "202601011200") (str "aabbccdd"))
    (str "202601011200") [] [e2eItem]).1

/-
  Lemmas about the escaping function.
-/

theorem replaceChar_append (pat : Char) (rep : Str) (a b : Str) :
    replaceChar pat rep (a ++ b) = replaceChar pat rep a ++ replaceChar pat rep b := by
  induction a with
  | nil => rfl
  | cons c a ih => simp [replaceChar, ih]

theorem pyEscape_eq_escMap (s : Str) : pyEscape s = escMap s := by
  induction s with
  | nil => rfl
  | cons c s ih =>
    have hstep : pyEscape (c :: s) =
        replaceChar colonC [rel, colonC]
          (replaceChar apos [rel, apos] (if c = rel then [rel, rel] else [c]))
          ++ pyEscape s := by
      simp [pyEscape, replaceChar, replaceChar_append]
    rw [hstep, ih]
    have hmap : escMap (c :: s) = escChar c ++ escMap s := by
      simp [escMap]
    rw [hmap]
    congr 1
    by_cases h1 : c = rel
    · subst h1; decide
    · by_cases h2 : c = apos
      · subst h2; decide
      · by_cases h3 : c = colonC
        · subst h3; decide
        · simp [replaceChar, escChar, h1, h2, h3]

theorem escMap_cons (c : Char) (s : Str) : escMap (c :: s) = escChar c ++ escMap s := by
  simp [escMap]

theorem specUnescape_cons_of_ne (c : Char) (h : c ≠ rel) (t : Str) :
    specUnescape (c :: t) = c :: specUnescape t := by
  cases t with
  | nil => simp [specUnescape, h]
  | cons d rest => simp [specUnescape, h]

theorem specUnescape_pyEscape (s : Str) : specUnescape (pyEscape s) = s := by
  rw [pyEscape_eq_escMap]
  induction s with
  | nil => rfl
  | cons c s ih =>
    rw [escMap_cons]
    by_cases h1 : c = rel
    · subst h1
      have : escChar rel = [rel, rel] := by decide
      rw [this]
      simp [specUnescape, ih]
    · by_cases h2 : c = apos
      · subst h2
        have : escChar apos = [rel, apos] := by decide
        rw [this]
        simp [specUnescape, ih]
      · by_cases h3 : c = colonC
        · subst h3
          have : escChar colonC = [rel, colonC] := by decide
          rw [this]
          simp [specUnescape, ih]
        · have : escChar c = [c] := by simp [escChar, h1, h2, h3]
          rw [this]
          rw [List.singleton_append, specUnescape_cons_of_ne c h1, ih]

/-
  Scanner lemmas: escaped content and plain separators contribute no
  unescaped occurrence of the terminator or the component separator.
-/

theorem noUnescaped_escMap_append (c : Char) (hc : c = apos ∨ c = colonC)
    (s t : Str) : noUnescaped c (escMap s ++ t) = noUnescaped c t := by
  induction s with
  | nil => rfl
  | cons a s ih =>
    rw [escMap_cons, List.append_assoc]
    by_cases h1 : a = rel
    · subst h1
      have he : escChar rel = [rel, rel] := by decide
      rw [he]
      simpa [noUnescaped] using ih
    · by_cases h2 : a = apos
      · subst h2
        have he : escChar apos = [rel, apos] := by decide
        rw [he]
        simpa [noUnescaped] using ih
      · by_cases h3 : a = colonC
        · subst h3
          have he : escChar colonC = [rel, colonC] := by decide
          rw [he]
          simpa [noUnescaped] using ih
        · have he : escChar a = [a] := by simp [escChar, h1, h2, h3]
          rw [he, List.singleton_append]
          have hac : a ≠ c := by
            rcases hc with h | h <;> simp [h, h2, h3]
          cases hrest : escMap s ++ t with
          | nil =>
            rcases List.append_eq_nil.mp hrest with ⟨_, ht⟩
            subst ht
            simp [noUnescaped, hac]
          | cons b rest2 =>
            have hcl : noUnescaped c (a :: b :: rest2)
                = (a != c && noUnescaped c (b :: rest2)) := by
              simp [noUnescaped, h1]
            rw [hcl, ← hrest, ih]
            simp [hac]

theorem noUnescaped_plain_append (c : Char) (x t : Str)
    (hx : ∀ a ∈ x, a ≠ rel ∧ a ≠ c) :
    noUnescaped c (x ++ t) = noUnescaped c t := by
  induction x with
  | nil => rfl
  | cons a x ih =>
    have ha := hx a (by simp)
    have ihx : noUnescaped c (x ++ t) = noUnescaped c t :=
      ih (fun b hb => hx b (by simp [hb]))
    rw [List.cons_append]
    cases hrest : x ++ t with
    | nil =>
      rcases List.append_eq_nil.mp hrest with ⟨_, ht⟩
      subst ht
      simp [noUnescaped, ha.1, ha.2]
    | cons b rest2 =>
      have hcl : noUnescaped c (a :: b :: rest2)
          = (a != c && noUnescaped c (b :: rest2)) := by
        simp [noUnescaped, ha.1]
      rw [hcl, ← hrest, ihx]
      simp [ha.2]

theorem noUnescaped_joinEsc (c : Char) (hc : c = apos ∨ c = colonC)
    (elems : List Str) (t : Str) :
    noUnescaped c (joinPlus (elems.map pyEscape) ++ t) = noUnescaped c t := by
  induction elems generalizing t with
  | nil => rfl
  | cons e tail ih =>
    cases tail with
    | nil =>
      show noUnescaped c (pyEscape e ++ t) = noUnescaped c t
      rw [pyEscape_eq_escMap]
      exact noUnescaped_escMap_append c hc e t
    | cons f rest =>
      have hj : joinPlus ((e :: f :: rest).map pyEscape)
          = pyEscape e ++ [plusC] ++ joinPlus ((f :: rest).map pyEscape) := by
        simp [joinPlus]
      rw [hj, pyEscape_eq_escMap]
      have hplus : ∀ a ∈ [plusC], a ≠ rel ∧ a ≠ c := by
        rcases hc with h | h <;> simp [h] <;> decide
      rw [List.append_assoc, List.append_assoc,
        noUnescaped_escMap_append c hc,
        noUnescaped_plain_append c [plusC] _ hplus]
      exact ih t

theorem count_escMap_zero (e : Str) (he : plusC ∉ e) : (escMap e).count plusC = 0 := by
  induction e with
  | nil => rfl
  | cons a e ih =>
    have ha : a ≠ plusC := by
      intro hh; exact he (by simp [hh])
    have ihe : (escMap e).count plusC = 0 := ih (fun hh => he (by simp [hh]))
    rw [escMap_cons, List.count_append, ihe]
    by_cases h1 : a = rel
    · subst h1; decide
    · by_cases h2 : a = apos
      · subst h2; decide
      · by_cases h3 : a = colonC
        · subst h3; decide
        · simp [escChar, h1, h2, h3, List.count_cons, ha]

theorem count_joinEsc (elems : List Str) (h : ∀ e ∈ elems, plusC ∉ e)
    (hne : elems ≠ []) :
    (joinPlus (elems.map pyEscape)).count plusC = elems.length - 1 := by
  induction elems with
  | nil => exact absurd rfl hne
  | cons e tail ih =>
    cases tail with
    | nil =>
      show (pyEscape e).count plusC = 0
      rw [pyEscape_eq_escMap]
      exact count_escMap_zero e (h e (by simp))
    | cons f rest =>
      have hj : joinPlus ((e :: f :: rest).map pyEscape)
          = pyEscape e ++ [plusC] ++ joinPlus ((f :: rest).map pyEscape) := by
        simp [joinPlus]
      have htail : (joinPlus ((f :: rest).map pyEscape)).count plusC
          = (f :: rest).length - 1 :=
        ih (fun x hx => h x (List.mem_cons_of_mem e hx)) (by simp)
      rw [hj, List.count_append, List.count_append, pyEscape_eq_escMap,
        count_escMap_zero e (h e (by simp)), htail]
      simp [List.count_cons]
      omega

/-- C2: the claim that the element separator `+` is escaped to `?+` is
false: the escaping leaves `+` untouched, so an element containing `+`
renders with an unescaped `+` inside its escaped text. -/
theorem C2_counterexample :
    pyEscape (str "a+b") = str "a+b"
      ∧ noUnescaped plusC (pyEscape (str "a+b")) = false := by
  decide

/-- C2 (amended): the escaping rewrites `?` to `??` and prefixes `?` to the
terminator and the component separator, but leaves `+` alone; for a tag
free of special characters, both segment encoders produce a body followed
by a single terminator, and the body contains no unescaped terminator and
no unescaped component separator. -/
theorem C2_escaping_amended (tag : Str) (elems : List Str)
    (htag : ∀ a ∈ tag, a ≠ rel ∧ a ≠ apos ∧ a ≠ colonC) :
    Release1.segment tag elems = segBody1 tag elems ++ [apos]
      ∧ noUnescaped apos (segBody1 tag elems) = true
      ∧ noUnescaped colonC (segBody1 tag elems) = true
      ∧ Release2.segment tag elems = segBody2 tag elems ++ [apos]
      ∧ noUnescaped apos (segBody2 tag elems) = true
      ∧ noUnescaped colonC (segBody2 tag elems) = true := by
  have hbody : ∀ c, (c = apos ∨ c = colonC) → ∀ es : List Str,
      noUnescaped c (tag ++ [plusC] ++ joinPlus (es.map pyEscape)) = true := by
    intro c hc es
    have hplus : ∀ a ∈ [plusC], a ≠ rel ∧ a ≠ c := by
      rcases hc with h | h <;> simp [h] <;> decide
    have htagc : ∀ a ∈ tag, a ≠ rel ∧ a ≠ c := by
      intro a ha
      rcases hc with h | h <;> subst h <;>
        exact ⟨(htag a ha).1, by rcases htag a ha with ⟨_, h2, h3⟩; tauto⟩
    calc noUnescaped c (tag ++ [plusC] ++ joinPlus (es.map pyEscape))
        = noUnescaped c ([plusC] ++ joinPlus (es.map pyEscape)) := by
          rw [List.append_assoc]
          exact noUnescaped_plain_append c tag _ htagc
      _ = noUnescaped c (joinPlus (es.map pyEscape)) :=
          noUnescaped_plain_append c [plusC] _ hplus
      _ = noUnescaped c (joinPlus (es.map pyEscape) ++ []) := by
          rw [List.append_nil]
      _ = noUnescaped c [] := noUnescaped_joinEsc c hc es []
      _ = true := rfl
  refine ⟨by simp [Release1.segment, segBody1], ?_, ?_,
    by simp [Release2.segment, segBody2], ?_, ?_⟩
  · exact hbody apos (Or.inl rfl) elems
  · exact hbody colonC (Or.inr rfl) elems
  · exact hbody apos (Or.inl rfl) (elems.filter (fun e => e ≠ []))
  · exact hbody colonC (Or.inr rfl) (elems.filter (fun e => e ≠ []))

/-- C2 witness: the amended statement at tag `FTX` and the single element
`a+b`. -/
theorem C2_escaping_amended_witness :
    Release1.segment (str "FTX") [str "a+b"] = segBody1 (str "FTX") [str "a+b"] ++ [apos]
      ∧ noUnescaped apos (segBody1 (str "FTX") [str "a+b"]) = true
      ∧ noUnescaped colonC (segBody1 (str "FTX") [str "a+b"]) = true
      ∧ Release2.segment (str "FTX") [str "a+b"] = segBody2 (str "FTX") [str "a+b"] ++ [apos]
      ∧ noUnescaped apos (segBody2 (str "FTX") [str "a+b"]) = true
      ∧ noUnescaped colonC (segBody2 (str "FTX") [str "a+b"]) = true :=
  C2_escaping_amended (str "FTX") [str "a+b"] (by decide)

/-- C7: escaping an element and applying the reference inverse unescape
recovers the original text, for every string. -/
theorem C7_roundtrip (s : Str) : specUnescape (pyEscape s) = s :=
  specUnescape_pyEscape s

/-- C6: the claim that no empty element is dropped is false for the
release2 encoder: the LIN call with an interior empty placeholder renders
identically to the call without it, and the rendered segment has only two
`+` delimiters where the release1 encoder keeps all three. -/
theorem C6_counterexample :
    Release2.segment (str "LIN") [str "1", [], str "EN:4000862141404"]
        = Release2.segment (str "LIN") [str "1", str "EN:4000862141404"]
      ∧ (Release2.segment (str "LIN") [str "1", [], str "EN:4000862141404"]).count plusC = 2
      ∧ (Release1.segment (str "LIN") [str "1", [], str "EN:4000862141404"]).count plusC = 3 := by
  decide

/-- C6 (amended): the release1 encoder joins the escaped elements in call
order preserving every position (for plus-free tag and elements the
rendered segment carries exactly one `+` per element), while the release2
encoder drops every empty element, interior or trailing, rendering exactly
as release1 does on the list with the empty elements removed. -/
theorem C6_positions_amended (tag : Str) (elems : List Str) (hne : elems ≠ [])
    (htag : plusC ∉ tag) (helems : ∀ e ∈ elems, plusC ∉ e) :
    Release2.segment tag elems
        = Release1.segment tag (elems.filter (fun e => e ≠ []))
      ∧ (Release1.segment tag elems).count plusC = elems.length := by
  constructor
  · rfl
  · have hj := count_joinEsc elems helems hne
    have htag0 : tag.count plusC = 0 := List.count_eq_zero.mpr htag
    have hlen : 1 ≤ elems.length := by
      cases elems with
      | nil => exact absurd rfl hne
      | cons _ _ => simp
    have hp : List.count plusC [plusC] = 1 := by decide
    have hap : List.count plusC [apos] = 0 := by decide
    rw [Release1.segment, List.count_append, List.count_append,
      List.count_append, htag0, hj, hp, hap]
    omega

/-- C6 witness: the amended statement at the LIN segment call of
`add_line_item`. -/
theorem C6_positions_amended_witness :
    Release2.segment (str "LIN") [str "1", [], str "EN:4000862141404"]
        = Release1.segment (str "LIN")
            (([str "1", [], str "EN:4000862141404"]).filter (fun e => e ≠ []))
      ∧ (Release1.segment (str "LIN") [str "1", [], str "EN:4000862141404"]).count plusC = 3 :=
  C6_positions_amended (str "LIN") [str "1", [], str "EN:4000862141404"]
    (by decide) (by decide) (by decide)


/-
  Structural lemmas about the release2 `generate` pipeline.
-/

namespace Release2

theorem step_ok {α ε : Type} (a : α) (f : α → α × Option ε) :
    step (a, none) f = f a := rfl

theorem step_snd_none {α ε : Type} (r : α × Option ε) (f : α → α × Option ε)
    (h : (step r f).2 = none) : r.2 = none ∧ step r f = f r.1 := by
  rcases r with ⟨a, e⟩
  cases e with
  | none => exact ⟨rfl, rfl⟩
  | some x => exact absurd h (by simp [step])

theorem add_line_item_ok (m : List Str) (it : LineItem)
    (h1 : validEanB it.ean = true) (h2 : isdigit it.qty = true) :
    add_line_item m it = (m ++ itemSegs it, none) := by
  simp [add_line_item, h1, h2]

theorem runItems_ok (items : List LineItem)
    (hall : ∀ it ∈ items, validEanB it.ean = true ∧ isdigit it.qty = true) :
    ∀ m, runItems m items = (m ++ items.flatMap itemSegs, none) := by
  induction items with
  | nil => intro m; simp [runItems]
  | cons it rest ih =>
    intro m
    have h1 := hall it (by simp)
    rw [runItems, add_line_item_ok m it h1.1 h1.2]
    show runItems (m ++ itemSegs it) rest = (m ++ (it :: rest).flatMap itemSegs, none)
    rw [ih (fun x hx => hall x (List.mem_cons_of_mem it hx))]
    simp

theorem add_default_parties_ok (cfg : Config) (m : List Str)
    (hb : validEanB cfg.buyer_ean = true) (hs : validEanB cfg.supplier_ean = true) :
    add_default_parties cfg m
      = (m ++ [segment (str "NAD") [str "BY", cfg.buyer_ean ++ str "::9"],
               segment (str "NAD") [str "SU", cfg.supplier_ean ++ str "::9"]], none) := by
  simp [add_default_parties, add_party, step, hb, hs]

theorem add_default_parties_none_inv (cfg : Config) (m : List Str)
    (h : (add_default_parties cfg m).2 = none) :
    validEanB cfg.buyer_ean = true ∧ validEanB cfg.supplier_ean = true := by
  by_cases hb : validEanB cfg.buyer_ean = true
  · by_cases hs : validEanB cfg.supplier_ean = true
    · exact ⟨hb, hs⟩
    · exact absurd h (by simp [add_default_parties, add_party, step, hb, hs])
  · exact absurd h (by simp [add_default_parties, add_party, step, hb])

theorem runItems_none (items : List LineItem) :
    ∀ m, (runItems m items).2 = none →
      (runItems m items).1 = m ++ items.flatMap itemSegs
        ∧ ∀ it ∈ items, validEanB it.ean = true ∧ isdigit it.qty = true := by
  induction items with
  | nil => intro m _; simp [runItems]
  | cons it rest ih =>
    intro m h
    by_cases h1 : validEanB it.ean = true
    · by_cases h2 : isdigit it.qty = true
      · rw [runItems, add_line_item_ok m it h1 h2] at h ⊢
        rcases ih (m ++ itemSegs it) h with ⟨hm, hrest⟩
        refine ⟨by rw [hm]; simp, ?_⟩
        intro x hx
        rcases List.mem_cons.mp hx with hx | hx
        · subst hx; exact ⟨h1, h2⟩
        · exact hrest x hx
      · exfalso
        have hli : add_line_item m it = (m, some (qtyError it.qty)) := by
          simp [add_line_item, h1, h2]
        rw [runItems, hli] at h
        simp at h
    · exfalso
      have hli : add_line_item m it = (m, some (eanError it.ean)) := by
        simp [add_line_item, h1]
      rw [runItems, hli] at h
      simp at h

theorem generate_ok (cfg : Config) (ref now : Str) (m0 : List Str)
    (items : List LineItem)
    (hb : validEanB cfg.buyer_ean = true) (hs : validEanB cfg.supplier_ean = true)
    (hne : items ≠ [])
    (hall : ∀ it ∈ items, validEanB it.ean = true ∧ isdigit it.qty = true) :
    generate cfg ref now m0 items = (fullMsg cfg ref now items, none) := by
  have hni : ¬items.isEmpty = true := by
    cases items with
    | nil => exact absurd rfl hne
    | cons _ _ => simp
  rw [generate, if_neg hni, add_default_parties_ok cfg _ hb hs, step_ok]
  rw [runItems_ok items hall, step_ok]
  unfold fullMsg add_trailer headerSegs add_transport_details add_header add_una_segment
  simp

theorem generate_none_inv (cfg : Config) (ref now : Str) (m0 : List Str)
    (items : List LineItem)
    (h : (generate cfg ref now m0 items).2 = none) :
    validEanB cfg.buyer_ean = true ∧ validEanB cfg.supplier_ean = true
      ∧ items ≠ []
      ∧ ∀ it ∈ items, validEanB it.ean = true ∧ isdigit it.qty = true := by
  by_cases hni : items.isEmpty
  · exact absurd h (by rw [generate, if_pos hni]; simp)
  · have hne : items ≠ [] := by
      cases items with
      | nil => exact absurd rfl hni
      | cons _ _ => simp
    rw [generate, if_neg hni] at h
    obtain ⟨hdp, heq⟩ := step_snd_none _ _ h
    obtain ⟨hb, hs⟩ := add_default_parties_none_inv cfg _ hdp
    rw [heq] at h
    obtain ⟨hri, _⟩ := step_snd_none _ _ h
    exact ⟨hb, hs, hne, (runItems_none items _ hri).2⟩

theorem flatMap_itemSegs_length (items : List LineItem) :
    (items.flatMap itemSegs).length = 4 * items.length := by
  induction items with
  | nil => rfl
  | cons it rest ih =>
    simp [itemSegs, ih]
    omega

end Release2



/-
  Index and trailer helper lemmas about the full message.
-/

theorem getLast_concat_str (l : List Str) (x : Str) : (l ++ [x]).getLast? = some x := by
  simp

theorem fullMsg_getLast (cfg : Release2.Config) (ref now : Str)
    (items : List Release2.LineItem) :
    (fullMsg cfg ref now items).getLast?
      = some (Release2.segment (str "UNT")
          [natToStr (fullMsg cfg ref now items).length, ref]) := by
  show ((Release2.headerSegs cfg ref now ++ items.flatMap Release2.itemSegs)
      ++ [Release2.segment (str "UNT")
          [natToStr ((Release2.headerSegs cfg ref now
              ++ items.flatMap Release2.itemSegs).length + 1), ref]]).getLast? = _
  rw [getLast_concat_str]
  have hl : (fullMsg cfg ref now items).length
      = (Release2.headerSegs cfg ref now ++ items.flatMap Release2.itemSegs).length + 1 := by
    show ((Release2.headerSegs cfg ref now ++ items.flatMap Release2.itemSegs)
        ++ [_]).length = _
    simp
    omega
  rw [hl]

theorem fullMsg_unh (cfg : Release2.Config) (ref now : Str)
    (items : List Release2.LineItem) :
    (fullMsg cfg ref now items)[1]?
      = some (Release2.segment (str "UNH") [ref, str "RECADV:D:96A:UN:EAN008"]) := by
  show ((Release2.headerSegs cfg ref now ++ items.flatMap Release2.itemSegs)
      ++ [Release2.segment (str "UNT")
          [natToStr ((Release2.headerSegs cfg ref now
              ++ items.flatMap Release2.itemSegs).length + 1), ref]])[1]? = _
  rw [List.getElem?_append_left (by simp [Release2.headerSegs]),
    List.getElem?_append_left (by simp [Release2.headerSegs])]
  rfl

theorem append_index_eq {α : Type} (A1 A2 B : List α) (u1 u2 : α)
    (hA : A1.length = A2.length)
    (hAi : ∀ j, j < A1.length → j ≠ 1 → j ≠ 3 → A1[j]? = A2[j]?) :
    ∀ i, i ≠ 1 → i ≠ 3 → i ≠ ((A1 ++ B) ++ [u1]).length - 1 →
      ((A1 ++ B) ++ [u1])[i]? = ((A2 ++ B) ++ [u2])[i]? := by
  intro i h1 h3 hl
  rcases Nat.lt_or_ge i A1.length with hlt | hge
  · rw [List.getElem?_append_left (show i < (A1 ++ B).length by simp; omega),
      List.getElem?_append_left hlt,
      List.getElem?_append_left (show i < (A2 ++ B).length by simp; omega),
      List.getElem?_append_left (show i < A2.length by omega)]
    exact hAi i hlt h1 h3
  · rcases Nat.lt_or_ge i (A1.length + B.length) with hlt2 | hge2
    · rw [List.getElem?_append_left (show i < (A1 ++ B).length by simp; omega),
        List.getElem?_append_right hge,
        List.getElem?_append_left (show i < (A2 ++ B).length by simp; omega),
        List.getElem?_append_right (show A2.length ≤ i by omega), hA]
    · rcases Nat.lt_or_ge i (A1.length + B.length + 1) with hlt3 | hge3
      · exfalso
        apply hl
        have : ((A1 ++ B) ++ [u1]).length = A1.length + B.length + 1 := by
          simp
          omega
        rw [this]
        omega
      · rw [List.getElem?_eq_none (by simp; omega),
          List.getElem?_eq_none (by simp; omega)]

/-- C1: whenever release2 `generate` returns without raising, the count
field of the final UNT trailer segment is the decimal text of the total
number of segments in the rendered message, the trailer included. -/
theorem C1_trailer_count (cfg : Release2.Config) (ref now : Str) (m0 : List Str)
    (items : List Release2.LineItem)
    (h : (Release2.generate cfg ref now m0 items).2 = none) :
    (Release2.generate cfg ref now m0 items).1.getLast?
      = some (Release2.segment (str "UNT")
          [natToStr (Release2.generate cfg ref now m0 items).1.length, ref]) := by
  obtain ⟨hb, hs, hne, hall⟩ := Release2.generate_none_inv cfg ref now m0 items h
  rw [Release2.generate_ok cfg ref now m0 items hb hs hne hall]
  exact fullMsg_getLast cfg ref now items

/-- C1 witness: the end-to-end input with one line item. -/
theorem C1_trailer_count_witness :
    (Release2.generate e2eCfg (str "REF12345") (str "202601011200") [] [e2eItem]).1.getLast?
      = some (Release2.segment (str "UNT")
          [natToStr (Release2.generate e2eCfg (str "REF12345")
              (str "202601011200") [] [e2eItem]).1.length,
           str "REF12345"]) :=
  C1_trailer_count e2eCfg (str "REF12345") (str "202601011200") [] [e2eItem] (by decide)

/-- C10: on a non-empty valid line-item list the rendered message has
exactly 10 + 4n segments, starting with the UNA service segment, and the
UNT trailer count equals 10 + 4n, so it includes the UNA segment. -/
theorem C10_segment_total (cfg : Release2.Config) (ref now : Str) (m0 : List Str)
    (items : List Release2.LineItem)
    (hb : validEanB cfg.buyer_ean = true) (hs : validEanB cfg.supplier_ean = true)
    (hne : items ≠ [])
    (hall : ∀ it ∈ items, validEanB it.ean = true ∧ isdigit it.qty = true) :
    Release2.generate cfg ref now m0 items = (fullMsg cfg ref now items, none)
      ∧ (fullMsg cfg ref now items).length = 10 + 4 * items.length
      ∧ (fullMsg cfg ref now items).head? = some unaSegment
      ∧ (fullMsg cfg ref now items).getLast?
          = some (Release2.segment (str "UNT")
              [natToStr (10 + 4 * items.length), ref]) := by
  have hlen : (fullMsg cfg ref now items).length = 10 + 4 * items.length := by
    show ((Release2.headerSegs cfg ref now ++ items.flatMap Release2.itemSegs)
        ++ [_]).length = _
    rw [List.length_append, List.length_append, Release2.flatMap_itemSegs_length]
    have h9 : (Release2.headerSegs cfg ref now).length = 9 := rfl
    rw [h9]
    simp
    omega
  refine ⟨Release2.generate_ok cfg ref now m0 items hb hs hne hall, hlen, ?_, ?_⟩
  · show ((Release2.headerSegs cfg ref now ++ items.flatMap Release2.itemSegs)
        ++ [_]).head? = _
    simp [Release2.headerSegs]
  · rw [fullMsg_getLast cfg ref now items, hlen]

/-- C10 witness: one line item gives 14 segments and trailer count 14. -/
theorem C10_segment_total_witness :
    Release2.generate e2eCfg (str "REF12345") (str "202601011200") [] [e2eItem]
        = (fullMsg e2eCfg (str "REF12345") (str "202601011200") [e2eItem], none)
      ∧ (fullMsg e2eCfg (str "REF12345") (str "202601011200") [e2eItem]).length
          = 10 + 4 * [e2eItem].length
      ∧ (fullMsg e2eCfg (str "REF12345") (str "202601011200") [e2eItem]).head?
          = some unaSegment
      ∧ (fullMsg e2eCfg (str "REF12345") (str "202601011200") [e2eItem]).getLast?
          = some (Release2.segment (str "UNT")
              [natToStr (10 + 4 * [e2eItem].length), str "REF12345"]) :=
  C10_segment_total e2eCfg (str "REF12345") (str "202601011200") [] [e2eItem]
    (by decide) (by decide) (by simp) (by decide)

/-- C5: with a validly configured builder, `generate` raises exactly when
the item list is empty, an item EAN fails the 13-digit check, or an item
quantity is not a digit string; and `add_party` and `add_line_item` reject
an invalid EAN (or, for items, a non-numeric quantity) with the message
list unchanged, before appending anything. -/
theorem C5_validation_behaviour (cfg : Release2.Config) (ref now : Str)
    (m0 : List Str) (items : List Release2.LineItem)
    (hb : validEanB cfg.buyer_ean = true) (hs : validEanB cfg.supplier_ean = true) :
    ((Release2.generate cfg ref now m0 items).2.isSome = true ↔
      (items = [] ∨ ∃ it ∈ items, validEanB it.ean = false ∨ isdigit it.qty = false))
    ∧ (∀ m q e, validEanB e = false →
        Release2.add_party m q e = (m, some (Release2.eanError e)))
    ∧ (∀ m it, validEanB it.ean = false →
        Release2.add_line_item m it = (m, some (Release2.eanError it.ean)))
    ∧ (∀ m it, validEanB it.ean = true → isdigit it.qty = false →
        Release2.add_line_item m it = (m, some (Release2.qtyError it.qty))) := by
  refine ⟨⟨?_, ?_⟩, ?_, ?_, ?_⟩
  · intro h
    by_contra hc
    push_neg at hc
    obtain ⟨hne, hgood⟩ := hc
    have hall : ∀ it ∈ items, validEanB it.ean = true ∧ isdigit it.qty = true := by
      intro it hit
      have hg := hgood it hit
      push_neg at hg
      exact ⟨Bool.ne_false_iff.mp hg.1, Bool.ne_false_iff.mp hg.2⟩
    rw [Release2.generate_ok cfg ref now m0 items hb hs hne hall] at h
    simp at h
  · intro h
    rcases h with h | ⟨it, hit, hbad⟩
    · subst h
      simp [Release2.generate]
    · cases hopt : (Release2.generate cfg ref now m0 items).2 with
      | some e => rfl
      | none =>
        exfalso
        obtain ⟨_, _, _, hall⟩ := Release2.generate_none_inv cfg ref now m0 items hopt
        rcases hbad with hbad | hbad
        · have hv := (hall it hit).1
          rw [hbad] at hv
          exact absurd hv (by decide)
        · have hv := (hall it hit).2
          rw [hbad] at hv
          exact absurd hv (by decide)
  · intro m q e h
    simp [Release2.add_party, h]
  · intro m it h
    simp [Release2.add_line_item, h]
  · intro m it h1 h2
    simp [Release2.add_line_item, h1, h2]

/-- C5 witness: a non-digit item EAN makes `generate` raise, a 3-digit EAN
makes `add_party` raise with nothing appended, and the same EAN rejection
holds for `add_line_item`. -/
theorem C5_validation_behaviour_witness :
    ((Release2.generate e2eCfg (str "REF12345") (str "202601011200") [] [badEanItem]).2.isSome = true)
      ∧ Release2.add_party [] (str "BY") (str "123")
          = ([], some (Release2.eanError (str "123")))
      ∧ Release2.add_line_item [] badEanItem
          = ([], some (Release2.eanError badEanItem.ean)) := by
  have h := C5_validation_behaviour e2eCfg (str "REF12345") (str "202601011200")
    [] [badEanItem] (by decide) (by decide)
  exact ⟨h.1.mpr (Or.inr ⟨badEanItem, by simp, Or.inl (by decide)⟩),
    h.2.1 [] (str "BY") (str "123") (by decide),
    h.2.2.1 [] badEanItem (by decide)⟩

/-- C8: two raise-free `generate` runs with the same configuration and
items but different message references and timestamps render the same
number of segments, equal at every position except the UNH position (1),
the DTM position (3) and the UNT trailer position (the last). -/
theorem C8_identical_inputs (cfg : Release2.Config) (items : List Release2.LineItem)
    (ref1 now1 ref2 now2 : Str) (m01 m02 : List Str)
    (h1 : (Release2.generate cfg ref1 now1 m01 items).2 = none)
    (h2 : (Release2.generate cfg ref2 now2 m02 items).2 = none) :
    (Release2.generate cfg ref1 now1 m01 items).1.length
        = (Release2.generate cfg ref2 now2 m02 items).1.length
      ∧ ∀ i, i ≠ 1 → i ≠ 3 →
          i ≠ (Release2.generate cfg ref1 now1 m01 items).1.length - 1 →
          (Release2.generate cfg ref1 now1 m01 items).1[i]?
            = (Release2.generate cfg ref2 now2 m02 items).1[i]? := by
  obtain ⟨hb, hs, hne, hall⟩ := Release2.generate_none_inv cfg ref1 now1 m01 items h1
  rw [Release2.generate_ok cfg ref1 now1 m01 items hb hs hne hall,
    Release2.generate_ok cfg ref2 now2 m02 items hb hs hne hall]
  constructor
  · show (fullMsg cfg ref1 now1 items).length = (fullMsg cfg ref2 now2 items).length
    show ((Release2.headerSegs cfg ref1 now1 ++ items.flatMap Release2.itemSegs)
        ++ [_]).length = ((Release2.headerSegs cfg ref2 now2 ++ items.flatMap Release2.itemSegs)
        ++ [_]).length
    simp [Release2.headerSegs]
  · intro i hi1 hi3 hil
    show ((Release2.headerSegs cfg ref1 now1 ++ items.flatMap Release2.itemSegs)
        ++ [Release2.segment (str "UNT")
            [natToStr ((Release2.headerSegs cfg ref1 now1
                ++ items.flatMap Release2.itemSegs).length + 1), ref1]])[i]?
      = ((Release2.headerSegs cfg ref2 now2 ++ items.flatMap Release2.itemSegs)
        ++ [Release2.segment (str "UNT")
            [natToStr ((Release2.headerSegs cfg ref2 now2
                ++ items.flatMap Release2.itemSegs).length + 1), ref2]])[i]?
    apply append_index_eq
    · rfl
    · intro j hj hj1 hj3
      have hj9 : j < 9 := hj
      interval_cases j
      · rfl
      · exact absurd rfl hj1
      · rfl
      · exact absurd rfl hj3
      · rfl
      · rfl
      · rfl
      · rfl
      · rfl
    · exact hi1
    · exact hi3
    · exact hil

/-- C8 witness: the two NAD segments agree across two runs with different
references and timestamps. -/
theorem C8_identical_inputs_witness :
    (Release2.generate e2eCfg (str "REFA") (str "202601011200") [] [e2eItem]).1[5]?
      = (Release2.generate e2eCfg (str "REFB") (str "202601011300") [] [e2eItem]).1[5]? :=
  (C8_identical_inputs e2eCfg [e2eItem] (str "REFA") (str "202601011200")
    (str "REFB") (str "202601011300") [] [] (by decide) (by decide)).2
    5 (by decide) (by decide) (by decide)


/-- C9: the claim that the message reference is generated once per
`generate` invocation, with two successive calls on the same builder
carrying different references, is false for the refactor5 variant its
sources cite: there the reference is created once in the constructor, and
two successive `generate` calls on that instance embed the very same
reference in their UNH segments. -/
theorem C9_counterexample :
    Refactor5.init (str "202601011200") (str "1234") (str "CarrierX") (str "DEHAM")
        (str "5412345000176") (str "4012345500004") (str "123456789")
          = Except.ok r5State
      ∧ (Refactor5.generate r5State (str "202601011300") [] [r5Item]).1[1]?
          = (Refactor5.generate r5State (str "202601011400") [] [r5Item]).1[1]?
      ∧ (Refactor5.generate r5State (str "202601011300") [] [r5Item]).1[1]?
          = some (Release1.segment (str "UNH")
              [r5State.message_ref, str "RECADV:D:96A:UN:EAN008"]) := by
  exact ⟨rfl, by decide, by decide⟩

/-- C9 (amended): in release2, references built in the same clock tick from
different random suffixes differ, and a raise-free `generate` call embeds
the reference generated for that call in its UNH segment and its UNT
trailer; in refactor5 the reference is per-instance, not per-call. -/
theorem C9_reference_amended (cfg : Release2.Config) (ts suf1 suf2 now : Str)
    (m0 : List Str) (items : List Release2.LineItem) (m : List Str)
    (hsuf : suf1 ≠ suf2)
    (hgen : Release2.generate cfg (Release2.generate_message_reference ts suf1)
        now m0 items = (m, none)) :
    Release2.generate_message_reference ts suf1
        ≠ Release2.generate_message_reference ts suf2
      ∧ m[1]? = some (Release2.segment (str "UNH")
          [Release2.generate_message_reference ts suf1, str "RECADV:D:96A:UN:EAN008"])
      ∧ m.getLast? = some (Release2.segment (str "UNT")
          [natToStr m.length, Release2.generate_message_reference ts suf1]) := by
  have h2 : (Release2.generate cfg (Release2.generate_message_reference ts suf1)
      now m0 items).2 = none := by rw [hgen]
  obtain ⟨hb, hs, hne, hall⟩ := Release2.generate_none_inv cfg _ now m0 items h2
  have hm : m = fullMsg cfg (Release2.generate_message_reference ts suf1) now items := by
    have hg := Release2.generate_ok cfg
      (Release2.generate_message_reference ts suf1) now m0 items hb hs hne hall
    rw [hgen] at hg
    exact congrArg Prod.fst hg
  refine ⟨fun hc => hsuf (List.append_cancel_left hc), ?_, ?_⟩
  · rw [hm]
    exact fullMsg_unh cfg _ now items
  · rw [hm]
    exact fullMsg_getLast cfg _ now items

/-- C9 witness: the amended statement at a concrete call whose reference is
built from timestamp 202601011200 and suffix aabbccdd, against a second
suffix 00112233 drawn in the same tick. -/
theorem C9_reference_amended_witness :
    Release2.generate_message_reference (str "202601011200") (str "aabbccdd")
        ≠ Release2.generate_message_reference (str "202601011200") (str "00112233")
      ∧ c9wMsg[1]? = some (Release2.segment (str "UNH")
          [Release2.generate_message_reference (str "202601011200") (str "aabbccdd"),
           str "RECADV:D:96A:UN:EAN008"])
      ∧ c9wMsg.getLast? = some (Release2.segment (str "UNT")
          [natToStr c9wMsg.length,
           Release2.generate_message_reference (str "202601011200") (str "aabbccdd")]) :=
  C9_reference_amended e2eCfg (str "202601011200") (str "aabbccdd") (str "00112233")
    (str "202601011200") [] [e2eItem] c9wMsg (by decide) (by decide)

/-- C3: evaluating release2 `generate` on the end-to-end input shows the
BGM segment as claimed but a LIN segment `LIN+1+EN?:4000862141404`, a QTY
segment `QTY+113?:12` and a NAD segment `NAD+BY+5412345000176?:?:9`
(each before the terminator): the interior empty element of LIN is
dropped and the component separators the claim expects (`EN:`, `113:`,
`::9`) are escaped, so the claimed segments are not produced. -/
theorem C3_end_to_end_eval :
    (Release2.generate e2eCfg (str "REFX") (str "202601011200") [] [e2eItem]).2 = none
      ∧ (Release2.generate e2eCfg (str "REFX") (str "202601011200") [] [e2eItem]).1[2]?
          = some (str "BGM+351+RECADV001+9" ++ [apos])
      ∧ (Release2.generate e2eCfg (str "REFX") (str "202601011200") [] [e2eItem]).1[9]?
          = some (str "LIN+1+EN?:4000862141404" ++ [apos])
      ∧ (Release2.generate e2eCfg (str "REFX") (str "202601011200") [] [e2eItem]).1[10]?
          = some (str "QTY+113?:12" ++ [apos])
      ∧ (Release2.generate e2eCfg (str "REFX") (str "202601011200") [] [e2eItem]).1[5]?
          = some (str "NAD+BY+5412345000176?:?:9" ++ [apos])
      ∧ str "LIN+1+EN?:4000862141404" ++ [apos] ≠ str "LIN+1++EN:4000862141404" ++ [apos]
      ∧ str "QTY+113?:12" ++ [apos] ≠ str "QTY+113:12" ++ [apos] := by
  decide

/-- C4: a simulated failure of the write step, after the named temporary
file has been created but before `tmp_file = tmp.name` runs, leaves the
temporary file stranded in the output directory because the `finally`
clause sees `tmp_file` still None; failures at the create or move steps
are cleaned up, and the unfailing run leaves exactly the target. -/
theorem C4_write_failure_eval :
    (Save.generate_and_save_fs .atWrite (str "tmpabc123") (str "RECADV_X.edi") []).2 = true
      ∧ str "tmpabc123"
          ∈ (Save.generate_and_save_fs .atWrite (str "tmpabc123") (str "RECADV_X.edi") []).1.fs
      ∧ str "RECADV_X.edi"
          ∉ (Save.generate_and_save_fs .atWrite (str "tmpabc123") (str "RECADV_X.edi") []).1.fs
      ∧ (Save.generate_and_save_fs .atCreate (str "tmpabc123") (str "RECADV_X.edi") []).1.fs = []
      ∧ (Save.generate_and_save_fs .atMove (str "tmpabc123") (str "RECADV_X.edi") []).1.fs = []
      ∧ (Save.generate_and_save_fs .noFail (str "tmpabc123") (str "RECADV_X.edi") []).1.fs
          = [str "RECADV_X.edi"] := by
  decide

end EdifactRecadv
